import Mathlib

/-!
# Verification of the wake-word session controller (`src/components/WakeWordDetector.tsx`)

This file gives a shallow embedding of the wake-word detector component and
proves properties about it.  The embedding follows the first (current)
revision of `WakeWordDetector.tsx`.

Modelling conventions, documented once here:

* The component is single-threaded and callback-driven.  We model its
  mutable refs and its React `detectorState` as one record `Ctrl`, and each
  handler / callback as a function `Ctrl → Ctrl × List Effect`, where
  `Effect` records the externally observable actions (creating or stopping
  a browser recognition session, invoking the VoiceBot's `startCall` /
  `endCall`, invoking the host's status / end-call callbacks, showing a
  toast).
* `setDetectorState` is modelled together with the effects whose
  dependency lists contain `detectorState`: the mount effect (source lines
  435–501) and the state-change effect (source lines 542–593), which run in
  declaration order on every committed change (`commitStep`).  A
  `setDetectorState` call with an unchanged value is a no-op (React bails
  out of the re-render).  Once microphone permission is cached
  (`hasMicPermissionRef`), the mount effect's re-run calls
  `setDetectorState('listening')` (source lines 451–455), so every commit
  of `detected`/`calling`/`error` is a transient that is bounced back to
  `listening`; the bounce is a separately scheduled commit (React defers
  effects), modelled by the `bounceQueued` flag and `fireBounce`, so
  pending timers may fire between the transient commit and the bounce.
* `detectorState` read inside a callback is the render-captured snapshot
  of the render that created the closure, not the live value.
  `startWakeWordDetection` only proceeds when its captured snapshot is
  `'listening'`, so every closure it installs (recognition handlers, the
  no-speech timeout, the debounce restarts) captured `'listening'` and
  their `detectorState === 'listening'` checks are vacuously true — those
  conditions are therefore dropped from the corresponding handlers here,
  keeping only their live-ref conjuncts.  `startWakeWordDetection` takes
  its captured snapshot as the explicit argument `snap`; `handleCallEnd`
  and `endCall` record the snapshot of their invocation render
  (`callEndSnap`, `endCallSnap`) for their deferred restart checks.
* Each timer ref holds at most one outstanding handle; arming a timer
  supersedes the previous one.  Anonymous `setTimeout` continuations are
  modelled as dedicated boolean fields, fired by explicit `fire…`
  functions.  The nested timers of a path are fired in their nesting
  order.
* Environment nondeterminism (whether `recognition.start()` throws,
  whether the VoiceBot call succeeds) is passed in as a boolean parameter.
  Speech-recognition availability and `window` existence are assumed.
* Recognition sessions are identified by a monotone counter `nextId`; the
  ref `recognition` holds the id of the currently held handle.  An event
  handler closure belonging to session `sid` is modelled by passing `sid`
  to the event function; the source's `recognitionRef.current ===
  recognition` staleness comparison becomes `s.recognition = some sid`.
-/

/-! ## Wake-phrase matcher (source lines 339–363) -/

/-- JavaScript's `text.includes(sub)`: `sub` occurs contiguously in `text`. -/
def includes (text sub : String) : Bool :=
  decide (sub.data <:+: text.data)

/-- The fixed name-variant list `annaVariations` (source line 346,
including its duplicated `'enna'` entry). -/
def annaVariations : List String :=
  ["anna", "ana", "enna", "enna", "hannah", "hanna", "onna", "ahna", "anah", "annuh"]

/-- The fixed salutation-variant list `heyVariations` (source line 347). -/
def heyVariations : List String :=
  ["hey", "hi", "hay", "hei", "ay", "hello", "helo", "heya", "hiya", "eh", "ey"]

/-- `detectWakeWord` (source lines 339–363): exact two-word phrases first,
then the variant cross product, where each pair matches on the literal
concatenation, on both tokens independently, or on the name token alone.
The source's early `return true` inside the nested `for` loops is the
`List.any` of the loop bodies. -/
def detectWakeWord (text : String) : Bool :=
  if includes text "hey anna" || includes text "hi anna" then
    true
  else
    heyVariations.any fun hey =>
      annaVariations.any fun anna =>
        includes text (hey ++ " " ++ anna) ||
          (includes text hey && includes text anna) ||
          includes text anna

/-- The single substring test the refinement claim compares the matcher
against: the transcript contains some fixed name variant anywhere. -/
def nameOnlyMatcher (text : String) : Bool :=
  annaVariations.any fun anna => includes text anna

theorem includes_iff {text sub : String} :
    includes text sub = true ↔ sub.data <:+: text.data := by
  simp [includes]

theorem includes_of_infix {text s s' : String}
    (h : includes text s = true) (hsub : s'.data <:+: s.data) :
    includes text s' = true :=
  includes_iff.2 (hsub.trans (includes_iff.1 h))

/-- `(s ++ t).data` unfolds to the concatenation of the character lists. -/
theorem string_data_append (s t : String) : (s ++ t).data = s.data ++ t.data :=
  rfl

theorem includes_append_right {text s t : String}
    (h : includes text (s ++ t) = true) : includes text t = true :=
  includes_of_infix h (by rw [string_data_append]; exact (List.suffix_append _ _).isInfix)

/-! ## Controller data model -/

/-- `DetectorState` (source line 49). -/
inductive DetectorState where
  | initializing
  | listening
  | detected
  | calling
  | error
deriving DecidableEq

/-- The two callback bodies ever installed in `restartTimeoutRef`:
`debounce` is the body `if (detectorState === 'listening' &&
!isTransitioning && !isListening) startWakeWordDetection()` armed by the
no-speech timeout, the on-error branches and on-end (source lines 239,
259, 285, 310, 406, 420) — its `detectorState` is the `'listening'`
snapshot captured when the arming session was created, so only the two
flag conjuncts are live; `stateChange` is the body
`if (!isListening) startWakeWordDetection()` armed by the state-change
effect when entering `listening` (source lines 550–557), whose captured
snapshot is likewise `'listening'`. -/
inductive RestartKind where
  | debounce
  | stateChange
deriving DecidableEq

/-- The call-status vocabulary of the VoiceBot interface. -/
inductive CallStatus where
  | connecting
  | ongoing
  | ended
  | error
deriving DecidableEq

/-- Recognition error codes distinguished by `recognition.onerror`
(source lines 249–292). -/
inductive ErrCode where
  | noSpeech
  | aborted
  | notAllowed
  | other
deriving DecidableEq

/-- Externally observable actions of the controller. -/
inductive Effect where
  | createSession (id : Nat)
  | stopSession (id : Nat)
  | voiceStartCall
  | voiceEndCall
  | statusCb (st : CallStatus)
  | endCallNotify
  | toast
deriving DecidableEq

/-- The controller's mutable state: `detectorState`, the refs of source
lines 91–105, and one boolean per anonymous `setTimeout` continuation.
`noSpeechTimer` stores the id of the session its closure captured.
`mountCleanup` records whether the mount effect's last run registered its
stop/clear cleanup (it does only on the permission-request path, source
lines 496–500; the cached-permission path returns early).  `bounceQueued`
marks a `setDetectorState('listening')` queued by the mount effect but not
yet committed.  `callEndSnap` / `endCallSnap` are the `detectorState`
snapshots captured by the renders that created the running `handleCallEnd`
/ `endCall` closures. -/
structure Ctrl where
  detector : DetectorState
  recognition : Option Nat
  nextId : Nat
  isListening : Bool
  isTransitioning : Bool
  isCallEnding : Bool
  isApiCalling : Bool
  voiceBot : Bool
  noSpeechTimer : Option Nat
  restartTimer : Option RestartKind
  callEndedTimer : Bool
  callEndInner1 : Bool
  callEndInner2 : Bool
  pendStartCall : Bool
  transResetTimer : Bool
  recoverTimer : Bool
  apiResetTimer : Bool
  endCallRecovery : Bool
  hasMicPermission : Bool
  mountCleanup : Bool
  bounceQueued : Bool
  callEndSnap : DetectorState
  endCallSnap : DetectorState
deriving DecidableEq

/-- The freshly mounted controller (source lines 88–105), with the
VoiceBot ref populated by the first render. -/
def Ctrl.init : Ctrl where
  detector := .initializing
  recognition := none
  nextId := 0
  isListening := false
  isTransitioning := false
  isCallEnding := false
  isApiCalling := false
  voiceBot := true
  noSpeechTimer := none
  restartTimer := none
  callEndedTimer := false
  callEndInner1 := false
  callEndInner2 := false
  pendStartCall := false
  transResetTimer := false
  recoverTimer := false
  apiResetTimer := false
  endCallRecovery := false
  hasMicPermission := false
  mountCleanup := true
  bounceQueued := false
  callEndSnap := .initializing
  endCallSnap := .initializing

/-! ## Primitive operations -/

/-- `clearAllTimeouts` (source lines 110–125): clears exactly the three
named timer refs. -/
def clearAllTimeouts (s : Ctrl) : Ctrl :=
  { s with noSpeechTimer := none, restartTimer := none, callEndedTimer := false }

/-- `stopRecognition` (source lines 130–141): stop and drop the held
handle if any, and synchronously clear `isListening`. -/
def stopRecognition (s : Ctrl) : Ctrl × List Effect :=
  match s.recognition with
  | some r => ({ s with recognition := none, isListening := false }, [.stopSession r])
  | none => ({ s with isListening := false }, [])

/-- One committed change of `detectorState` to `ns`, with the effect runs
it triggers.  In order: the mount effect (source lines 435–501) — its
previous cleanup (stop recognition, clear all timers) when one was
registered, then its body, which with cached permission merely queues
`setDetectorState('listening')` (handled by the caller via `bounceQueued`)
and without it issues a fresh permission request and registers the
cleanup — then the state-change effect (source lines 542–593): its cleanup
runs with the captured old state (stop recognition if that was not
`listening`; clear the restart and no-speech timers), and its body for the
new state arms the delayed start timer when entering `listening` without
`isTransitioning`, otherwise stops recognition and clears those timers
(`callEndedTimeoutRef` deliberately persists). -/
def commitStep (ns : DetectorState) (s : Ctrl) : Ctrl × List Effect :=
  let old := s.detector
  let s0 := { s with detector := ns }
  let r1 :=
    if s0.mountCleanup then (clearAllTimeouts (stopRecognition s0).1, (stopRecognition s0).2)
    else (s0, [])
  let s1 := { r1.1 with mountCleanup := !r1.1.hasMicPermission }
  let r2 := if old ≠ DetectorState.listening then stopRecognition s1 else (s1, [])
  let s2 := { r2.1 with restartTimer := none, noSpeechTimer := none }
  if ns = .listening ∧ s2.isTransitioning = false then
    ({ s2 with restartTimer := some .stateChange }, r1.2 ++ r2.2)
  else
    let r3 := stopRecognition s2
    ({ r3.1 with restartTimer := none, noSpeechTimer := none }, r1.2 ++ r2.2 ++ r3.2)

/-- `setDetectorState`: an unchanged value is a no-op (React bail-out);
otherwise the change commits (`commitStep`) and, when the mount effect ran
with cached permission and the new state is not `listening`, its
`setDetectorState('listening')` is left queued (`bounceQueued`) for a
later commit (`fireBounce`). -/
def setState (ns : DetectorState) (s : Ctrl) : Ctrl × List Effect :=
  if ns = s.detector then (s, [])
  else
    let r := commitStep ns s
    let q := if ns = .listening then false else r.1.hasMicPermission
    ({ r.1 with bounceQueued := q }, r.2)

/-- The queued mount-effect `setDetectorState('listening')` committing:
a bail-out if the state meanwhile returned to `listening`, otherwise the
bounce back to `listening` commits. -/
def fireBounce (s : Ctrl) : Ctrl × List Effect :=
  if s.bounceQueued then
    let s0 := { s with bounceQueued := false }
    if s0.detector = .listening then (s0, [])
    else commitStep .listening s0
  else (s, [])

/-- `startWakeWordDetection` (source lines 182–427).  `snap` is the
`detectorState` snapshot captured by the render that created the invoked
instance (the function is re-created whenever `detectorState` changes, so
a caller holding an older instance checks an older state); the guard at
source line 192 compares this snapshot, not the live state.  `startOk` is
the environment's verdict on `recognition.start()`: on success a session
with a fresh id is live; if `start()` throws, the handle is dropped and
the debounced retry is armed (source lines 399–411).  Speech-recognition
availability is assumed. -/
def startWakeWordDetection (snap : DetectorState) (startOk : Bool) (s : Ctrl) :
    Ctrl × List Effect :=
  if s.isListening || s.isTransitioning || s.isApiCalling then (s, [])
  else if snap ≠ .listening then (s, [])
  else
    let sid := s.nextId
    let s1 := { s with recognition := some sid, nextId := sid + 1 }
    if startOk then (s1, [.createSession sid])
    else
      let s2 := { s1 with recognition := none, isListening := false }
      if s2.isTransitioning = false then
        ({ s2 with restartTimer := some .debounce }, [])
      else (s2, [])

/-! ## Recognition event handlers -/

/-- `recognition.onstart` (source lines 224–246) for the session `sid`
that fired: set `isListening` and arm the no-speech timeout (whose closure
captures `sid`).  There is no staleness check in this handler. -/
def onStart (sid : Nat) (s : Ctrl) : Ctrl × List Effect :=
  ({ s with isListening := true, noSpeechTimer := some sid }, [])

/-- The no-speech timeout firing (source lines 233–245): its
`detectorState === 'listening'` conjunct reads the snapshot captured when
the session was created — necessarily `'listening'`, hence vacuous — so
the live checks are the handle staleness and `isTransitioning`; if still
current, stop recognition and arm the debounced restart. -/
def fireNoSpeech (s : Ctrl) : Ctrl × List Effect :=
  match s.noSpeechTimer with
  | none => (s, [])
  | some sid =>
    let s1 := { s with noSpeechTimer := none }
    if s1.recognition = some sid ∧ s1.isTransitioning = false then
      let r2 := stopRecognition s1
      ({ r2.1 with restartTimer := some .debounce }, r2.2)
    else (s1, [])

/-- `recognition.onerror` (source lines 249–292).  The handler never
compares the firing session against the held handle, and the
`detectorState === 'listening'` conjunct of the no-speech/other branches
is the snapshot captured at session creation — always `'listening'`, hence
vacuous — leaving `isTransitioning` as the only live guard of the
restart-arming branches. -/
def onError (code : ErrCode) (s : Ctrl) : Ctrl × List Effect :=
  match code with
  | .noSpeech =>
    if s.isTransitioning = false then
      let r1 := stopRecognition s
      ({ r1.1 with restartTimer := some .debounce }, r1.2)
    else (s, [])
  | .aborted => ({ s with isListening := false }, [])
  | .notAllowed =>
    let r1 := setState .error s
    (r1.1, r1.2 ++ [.toast])
  | .other =>
    if s.isTransitioning = false then
      let r1 := stopRecognition s
      ({ r1.1 with restartTimer := some .debounce }, r1.2)
    else (s, [])

/-- `recognition.onend` (source lines 295–316) for the session `sid` that
fired: unconditionally clear `isListening` and the no-speech timeout;
only if `sid` is the held handle and not transitioning (the
`detectorState === 'listening'` conjunct is the vacuous captured
snapshot), drop the handle and arm the debounced restart. -/
def onEnd (sid : Nat) (s : Ctrl) : Ctrl × List Effect :=
  let s1 := { s with isListening := false, noSpeechTimer := none }
  if s1.recognition = some sid ∧ s1.isTransitioning = false then
    ({ s1 with recognition := none, restartTimer := some .debounce }, [])
  else (s1, [])

/-- `recognition.onresult` (source lines 319–394) with the joined
lowercase transcript: clear the no-speech timeout; drop the result while
transitioning; otherwise run the matcher and, on a match, perform the
wake transition (flag, stop, clear timers, state `detected`, toast,
schedule the call start).  No staleness check. -/
def onResult (transcript : String) (s : Ctrl) : Ctrl × List Effect :=
  let s0 := { s with noSpeechTimer := none }
  if s0.isTransitioning then (s0, [])
  else if detectWakeWord transcript then
    let s1 := { s0 with isTransitioning := true }
    let r2 := stopRecognition s1
    let s3 := clearAllTimeouts r2.1
    let r4 := setState .detected s3
    ({ r4.1 with pendStartCall := true }, r2.2 ++ r4.2 ++ [.toast])
  else (s0, [])

/-! ## Call handoff -/

/-- `startCall` (source lines 599–658), atomically to its settlement.
`outcome` is the environment's verdict on `voiceBotRef.current.startCall()`
racing the 10 s timeout (source lines 632–646): `true` when the call start
resolved in time.  Failure (a throw, the timeout, or a missing VoiceBot
ref, source lines 614–629 and 648–657) shows a toast (from `safeApiCall`'s
catch or the missing-ref branch) and arms the 2 s fallback to `listening`;
a `safeApiCall` short-circuit while `isApiCalling` arms the fallback with
no toast and no VoiceBot invocation. -/
def startCall (outcome : Bool) (s : Ctrl) : Ctrl × List Effect :=
  if s.isCallEnding then (s, [])
  else
    let r1 := setState .calling s
    let r2 := stopRecognition r1.1
    let s3 := clearAllTimeouts r2.1
    if s3.voiceBot = false then
      ({ s3 with isTransitioning := true, recoverTimer := true }, r1.2 ++ r2.2 ++ [.toast])
    else if s3.isApiCalling then
      ({ s3 with isTransitioning := true, recoverTimer := true }, r1.2 ++ r2.2)
    else
      let s4 := { s3 with isApiCalling := true, apiResetTimer := true }
      if outcome then (s4, r1.2 ++ r2.2 ++ [.voiceStartCall])
      else
        ({ s4 with isTransitioning := true, recoverTimer := true },
          r1.2 ++ r2.2 ++ [.voiceStartCall, .toast])

/-- The 500 ms wake/manual handoff timer firing (source lines 386–392 and
519–524): invoke `startCall` and arm the 1 s `isTransitioning` reset. -/
def firePendStartCall (outcome : Bool) (s : Ctrl) : Ctrl × List Effect :=
  if s.pendStartCall then
    let s1 := { s with pendStartCall := false }
    let r2 := startCall outcome s1
    ({ r2.1 with transResetTimer := true }, r2.2)
  else (s, [])

/-- The 1 s `isTransitioning := false` reset timer shared by the wake,
manual-trigger and failure-recovery paths. -/
def fireTransReset (s : Ctrl) : Ctrl × List Effect :=
  if s.transResetTimer then
    ({ s with transResetTimer := false, isTransitioning := false }, [])
  else (s, [])

/-- The 2 s call-start failure fallback firing (source lines 622–627 and
651–656): back to `listening`, then arm the 1 s `isTransitioning` reset. -/
def fireRecover (s : Ctrl) : Ctrl × List Effect :=
  if s.recoverTimer then
    let s1 := { s with recoverTimer := false }
    let r2 := setState .listening s1
    ({ r2.1 with transResetTimer := true }, r2.2)
  else (s, [])

/-- `safeApiCall`'s `finally` timer (source lines 168–173): release the
API-call guard 1 s after settlement. -/
def fireApiReset (s : Ctrl) : Ctrl × List Effect :=
  if s.apiResetTimer then
    ({ s with apiResetTimer := false, isApiCalling := false }, [])
  else (s, [])

/-! ## Call end -/

/-- `handleCallEnd` (source lines 671–707), the synchronous part: set
`isTransitioning`, clear all timers, notify the host, arm the 1 s settle
timer.  It does not stop recognition.  The invoked closure is the one of
the current render, so its captured `detectorState` — consulted later by
the 200 ms restart check — is the committed state right now
(`callEndSnap`). -/
def handleCallEnd (s : Ctrl) : Ctrl × List Effect :=
  let s1 := clearAllTimeouts { s with isTransitioning := true, callEndSnap := s.detector }
  ({ s1 with callEndedTimer := true }, [.statusCb .ended, .endCallNotify])

/-- The call-end settle timer firing (source lines 685–687): state back
to `listening`, then arm the 500 ms inner timer. -/
def fireCallEnded (s : Ctrl) : Ctrl × List Effect :=
  if s.callEndedTimer then
    let s1 := { s with callEndedTimer := false }
    let r2 := setState .listening s1
    ({ r2.1 with callEndInner1 := true }, r2.2)
  else (s, [])

/-- The 500 ms inner call-end timer (source lines 690–705): drop
`isTransitioning`; if not listening, stop defensively and arm the final
200 ms restart check. -/
def fireCallEndInner1 (s : Ctrl) : Ctrl × List Effect :=
  if s.callEndInner1 then
    let s1 := { s with callEndInner1 := false, isTransitioning := false }
    if s1.isListening = false then
      let r2 := stopRecognition s1
      ({ r2.1 with callEndInner2 := true }, r2.2)
    else (s1, [])
  else (s, [])

/-- The final 200 ms call-end restart check (source lines 699–703): its
`detectorState === 'listening'` conjunct reads the snapshot captured when
`handleCallEnd` was created (`callEndSnap`), not the live state at fire
time, and the `startWakeWordDetection` it calls is the instance of that
same render. -/
def fireCallEndInner2 (startOk : Bool) (s : Ctrl) : Ctrl × List Effect :=
  if s.callEndInner2 then
    let s1 := { s with callEndInner2 := false }
    if s1.callEndSnap = .listening ∧ s1.isTransitioning = false ∧ s1.isListening = false then
      startWakeWordDetection s1.callEndSnap startOk s1
    else (s1, [])
  else (s, [])

/-- The debounced / state-change restart timer firing, running the
callback body recorded at arming time (see `RestartKind`).  Both bodies
captured `detectorState = 'listening'` (debounce timers are armed from
within a session whose creating render was listening; the state-change
timer is armed on a commit of `listening`), so the debounce body's state
conjunct is vacuous and both call `startWakeWordDetection` with the
`'listening'` snapshot. -/
def fireRestart (startOk : Bool) (s : Ctrl) : Ctrl × List Effect :=
  match s.restartTimer with
  | none => (s, [])
  | some k =>
    let s1 := { s with restartTimer := none }
    match k with
    | .debounce =>
      if s1.isTransitioning = false ∧ s1.isListening = false then
        startWakeWordDetection .listening startOk s1
      else (s1, [])
    | .stateChange =>
      if s1.isListening = false then startWakeWordDetection .listening startOk s1
      else (s1, [])

/-- `endCall` (source lines 714–767), the synchronous prefix up to and
including the `voiceBotRef.current.endCall()` invocation: the
`isCallEnding` idempotence guard, the flag, stop recognition, clear all
timers, state to `listening`, then the VoiceBot end-call request (skipped
when the ref is absent).  The host invokes the instance of the current
render, whose captured `detectorState` (`endCallSnap`) is what the
restart check's `startWakeWordDetection` will consult. -/
def endCallEnter (s : Ctrl) : Ctrl × List Effect :=
  if s.isCallEnding then (s, [])
  else
    let s1 := { s with isCallEnding := true, endCallSnap := s.detector }
    let r2 := stopRecognition s1
    let s3 := clearAllTimeouts r2.1
    let r4 := setState .listening s3
    if r4.1.voiceBot then (r4.1, r2.2 ++ r4.2 ++ [.voiceEndCall])
    else (r4.1, r2.2 ++ r4.2)

/-- The continuation of `endCall` after its awaits.  `ok = true` is the
normal path (source lines 737–755): notify the host, reset the three
flags, arm the 500 ms restart check.  `ok = false` is the `catch` path
(source lines 757–766): reset the flags, force `listening`, notify the
host; no restart check is armed. -/
def endCallFinish (ok : Bool) (s : Ctrl) : Ctrl × List Effect :=
  if ok then
    ({ s with
        isCallEnding := false, isTransitioning := false, isListening := false,
        endCallRecovery := true }, [.statusCb .ended, .endCallNotify])
  else
    let s1 := { s with isCallEnding := false, isTransitioning := false, isListening := false }
    let r2 := setState .listening s1
    (r2.1, r2.2 ++ [.statusCb .ended, .endCallNotify])

/-- The 500 ms restart check armed by a successful `endCall` (source
lines 750–755): its body re-checks only `isTransitioning` and
`isListening` — no state check of its own — and then calls the
`startWakeWordDetection` captured by the `endCall` closure's render
(`endCallSnap`). -/
def fireEndCallRecovery (startOk : Bool) (s : Ctrl) : Ctrl × List Effect :=
  if s.endCallRecovery then
    let s1 := { s with endCallRecovery := false }
    if s1.isTransitioning = false ∧ s1.isListening = false then
      startWakeWordDetection s1.endCallSnap startOk s1
    else (s1, [])
  else (s, [])

/-- `handleStartConversation` (source lines 510–525), the manual-trigger
listener: handled regardless of the current state — stop recognition,
clear all timers, set `isTransitioning`, state `detected`, schedule the
call start. -/
def handleStartConversation (s : Ctrl) : Ctrl × List Effect :=
  let r1 := stopRecognition s
  let s2 := clearAllTimeouts r1.1
  let s3 := { s2 with isTransitioning := true }
  let r4 := setState .detected s3
  ({ r4.1 with pendStartCall := true }, r1.2 ++ r4.2)

/-- The VoiceBot `onCallStatusChange` handler (source lines 823–838):
`ended`/`error` run `handleCallEnd`; `connecting`/`ongoing` adopt an
externally started call; every status is forwarded to the host. -/
def voiceStatusChange (st : CallStatus) (s : Ctrl) : Ctrl × List Effect :=
  match st with
  | .ended | .error =>
    let r1 := handleCallEnd s
    (r1.1, r1.2 ++ [.statusCb st])
  | .connecting | .ongoing =>
    if s.detector ≠ .calling then
      let r1 := stopRecognition s
      let s2 := clearAllTimeouts r1.1
      let r3 := setState .calling s2
      (r3.1, r1.2 ++ r3.2 ++ [.statusCb st])
    else (s, [.statusCb st])

/-- The microphone-permission success continuation of the mount effect
(source lines 469–476): cache the permission and enter `listening`. -/
def permissionGranted (s : Ctrl) : Ctrl × List Effect :=
  setState .listening { s with hasMicPermission := true }

/-! ## Claims about the wake-phrase matcher -/

theorem mem_anna_anna : "anna" ∈ annaVariations := by simp [annaVariations]

theorem mem_hey_hey : "hey" ∈ heyVariations := by simp [heyVariations]

/-- Claim C1: the wake-phrase matcher, as a pure function on a lowercase
transcript, returns true on "hey anna", "hi anna" and "ana please stop"
(name-only permissive match), and false on "completely unrelated
sentence" and on the empty string. -/
theorem claim1_matcher_values :
    detectWakeWord "hey anna" = true ∧
    detectWakeWord "hi anna" = true ∧
    detectWakeWord "ana please stop" = true ∧
    detectWakeWord "completely unrelated sentence" = false ∧
    detectWakeWord "" = false := by
  decide

/-- Claim C10: for every input string the wake-phrase matcher returns
true iff the string contains one of the fixed name variants as a
substring anywhere; the exact-phrase check and the
salutation-crossed-with-name checks are subsumed by the name-alone
clause, so the whole matcher equals the single substring test
`nameOnlyMatcher`. -/
theorem claim10_matcher_refines_name_only (text : String) :
    detectWakeWord text = nameOnlyMatcher text := by
  cases h : nameOnlyMatcher text with
  | true =>
    obtain ⟨a, ha, hinc⟩ := List.any_eq_true.1 h
    unfold detectWakeWord
    split
    · rfl
    · exact List.any_eq_true.2 ⟨"hey", mem_hey_hey, List.any_eq_true.2 ⟨a, ha, by simp [hinc]⟩⟩
  | false =>
    have hall : ∀ a ∈ annaVariations, includes text a = false := by
      intro a ha
      have h' := List.any_eq_false.1 h a ha
      simpa using h'
    have hanna : includes text "anna" = false := hall "anna" mem_anna_anna
    have h1 : includes text "hey anna" = false := by
      cases hx : includes text "hey anna" with
      | true =>
        have : includes text "anna" = true := includes_of_infix hx (by decide)
        simp [this] at hanna
      | false => rfl
    have h2 : includes text "hi anna" = false := by
      cases hx : includes text "hi anna" with
      | true =>
        have : includes text "anna" = true := includes_of_infix hx (by decide)
        simp [this] at hanna
      | false => rfl
    unfold detectWakeWord
    rw [if_neg (by simp [h1, h2])]
    rw [List.any_eq_false]
    intro hey _
    rw [Bool.not_eq_true, List.any_eq_false]
    intro anna hanna'
    have h3 : includes text anna = false := hall anna hanna'
    have h4 : includes text (hey ++ " " ++ anna) = false := by
      cases hx : includes text (hey ++ " " ++ anna) with
      | true =>
        have := includes_append_right hx
        simp [this] at h3
      | false => rfl
    simp [h3, h4]

/-! ## Claims about the guards (C2, C3) -/

/-- Claim C2 (amended): while `isTransitioning` is true the recognition
start operation is a no-op (for any captured state snapshot) and every
incoming on-result event is discarded (only its clearing of the no-speech
timeout happens), without reaching the wake-phrase matcher or any state
transition.  `isCallEnding` does not participate in either guard. -/
theorem claim2_transitioning_guard (s : Ctrl) (snap : DetectorState) (ok : Bool) (t : String)
    (h : s.isTransitioning = true) :
    startWakeWordDetection snap ok s = (s, []) ∧
    onResult t s = ({ s with noSpeechTimer := none }, []) := by
  constructor
  · unfold startWakeWordDetection
    simp [h]
  · unfold onResult
    simp [h]

def c2w : Ctrl := { Ctrl.init with isTransitioning := true }

theorem claim2_transitioning_guard_witness :
    startWakeWordDetection .listening true c2w = (c2w, []) ∧
    onResult "hey anna" c2w = ({ c2w with noSpeechTimer := none }, []) :=
  claim2_transitioning_guard c2w .listening true "hey anna" rfl

/-- Claim C2 counterexample: in the reachable state that `endCall` leaves
while its request is in flight — `detector = listening`, `isCallEnding =
true`, all other guards clear — the start operation (invoked by any
restart timer; such callbacks carry the `listening` snapshot) creates a
fresh recognition session, and an incoming result event is fed to the
matcher and performs the wake transition.  `isCallEnding` alone blocks
neither, contradicting the claim. -/
def c2state : Ctrl :=
  { Ctrl.init with
      detector := .listening, isCallEnding := true,
      hasMicPermission := true, mountCleanup := false }

theorem claim2_counterexample :
    c2state.isCallEnding = true ∧
    (startWakeWordDetection .listening true c2state).2 = [Effect.createSession 0] ∧
    ((onResult "hey anna" c2state).1).detector = .detected := by
  decide

/-- Claim C3 (amended): a stale on-end event — one whose session `sid` is
not the handle the controller currently holds — schedules no restart and
changes no state beyond unconditionally clearing `isListening` and the
no-speech timer; in particular the detector state, the restart timer and
all guard flags other than `isListening` are unchanged.  (The on-start,
on-result and on-error handlers perform no staleness check at all.) -/
theorem claim3_stale_onend (s : Ctrl) (sid : Nat)
    (h : s.recognition ≠ some sid) :
    onEnd sid s = ({ s with isListening := false, noSpeechTimer := none }, []) := by
  unfold onEnd
  simp [h]

theorem claim3_stale_onend_witness :
    onEnd 5 Ctrl.init = ({ Ctrl.init with isListening := false, noSpeechTimer := none }, []) :=
  claim3_stale_onend Ctrl.init 5 (by decide)

/-- Claim C3 counterexample: with session 1 held and listening, a single
on-end event from the stale session 0 flips `isListening` from true to
false — the controller's observable state is changed by a stale event,
contradicting the claim.  (A stale on-start likewise sets `isListening`
and arms the no-speech timer.) -/
def c3state : Ctrl :=
  { Ctrl.init with detector := .listening, recognition := some 1, isListening := true }

theorem claim3_counterexample :
    c3state.isListening = true ∧ c3state.recognition = some 1 ∧
    ((onEnd 0 c3state).1).isListening = false ∧
    ((onStart 0 c3state).1).noSpeechTimer = some 0 := by
  decide

/-! ## Claims about session lifecycle (C4, C7) -/

/-- Claim C4 (amended): the controller holds at most one recognition
handle (the reference is a single slot a start overwrites), and the start
operation is a no-op while `isListening` is true — but it never emits a
stop for a previously held handle: a start that proceeds while a
non-listening handle is held abandons that session without tearing it
down. -/
theorem claim4_start_never_tears_down (s : Ctrl) (snap : DetectorState) (ok : Bool) :
    (s.isListening = true → startWakeWordDetection snap ok s = (s, [])) ∧
    (∀ i, Effect.stopSession i ∉ (startWakeWordDetection snap ok s).2) := by
  constructor
  · intro h
    unfold startWakeWordDetection
    simp [h]
  · intro i
    unfold startWakeWordDetection
    split
    · simp
    · split
      · simp
      · dsimp only
        split
        · simp
        · split <;> simp

theorem claim4_start_never_tears_down_witness :
    startWakeWordDetection .listening true { Ctrl.init with isListening := true } =
      ({ Ctrl.init with isListening := true }, []) ∧
    Effect.stopSession 0 ∉
      (startWakeWordDetection .listening true { Ctrl.init with isListening := true }).2 :=
  ⟨(claim4_start_never_tears_down { Ctrl.init with isListening := true } .listening true).1 rfl,
   (claim4_start_never_tears_down { Ctrl.init with isListening := true } .listening true).2 0⟩

/-- Claim C4 counterexample: a run in which two recognition sessions are
simultaneously live.  From mount: permission granted (the commit of
`listening` arms the delayed start), the timer creates session 0, its
on-start fires.  The host then invokes `endCall` (the spec's §6 allows it
at any time): session 0 is stopped and the VoiceBot end request goes out;
the VoiceBot reports `ended`, so `handleCallEnd` — created by the
`listening` render — starts the settle chain.  Session 0's natural on-end
arrives (blocked from restarting by `isTransitioning`).  The settle chain
runs: its `setDetectorState('listening')` bails (already listening), the
500 ms step drops `isTransitioning`, and the 200 ms check (snapshot
`listening`, flags clear) creates session 1; its on-start fires.
`endCall`'s continuation then resumes: it force-clears `isListening` and
arms its own 500 ms restart check, which — flags now clear, snapshot
`listening` — creates session 2 while session 1 is still live: no
`stopSession 1` is ever emitted.  (Timing: the settle chain takes 1.7 s
from the `ended` report while `endCall` resumes 1 s after its VoiceBot
request resolves, so this interleaving needs nothing unusual.) -/
def c4a : Ctrl × List Effect := permissionGranted Ctrl.init
def c4b : Ctrl × List Effect := fireRestart true c4a.1
def c4c : Ctrl × List Effect := onStart 0 c4b.1
def c4d : Ctrl × List Effect := endCallEnter c4c.1
def c4e : Ctrl × List Effect := voiceStatusChange .ended c4d.1
def c4f : Ctrl × List Effect := onEnd 0 c4e.1
def c4g : Ctrl × List Effect := fireCallEnded c4f.1
def c4h : Ctrl × List Effect := fireCallEndInner1 c4g.1
def c4i : Ctrl × List Effect := fireCallEndInner2 true c4h.1
def c4j : Ctrl × List Effect := onStart 1 c4i.1
def c4k : Ctrl × List Effect := endCallFinish true c4j.1
def c4l : Ctrl × List Effect := fireEndCallRecovery true c4k.1

theorem claim4_counterexample :
    c4i.2 = [Effect.createSession 1] ∧
    (c4k.1).recognition = some 1 ∧
    c4l.2 = [Effect.createSession 2] ∧
    Effect.stopSession 1 ∉ c4j.2 ++ c4k.2 ++ c4l.2 ∧
    (c4l.1).recognition = some 2 := by
  decide

/-- Claim C7 (amended): every deferred recognition-restart callback — the
debounced restart armed by the no-speech timeout and the on-error/on-end
branches (`fireRestart` on a `debounce` entry), the call-end recovery
check (`fireCallEndInner2`) and the explicit end-call recovery check
(`fireEndCallRecovery`) — re-checks the live `isTransitioning` and
`isListening` flags at fire time, and when either is set the attempt is
silently dropped: the timer is consumed, no session is created and
nothing is queued.  The "still in the `listening` state" part of the
claim's check, however, is a render-captured `detectorState` snapshot
(`'listening'` for all of these paths), not the live state, so it cannot
drop an attempt. -/
theorem claim7_restart_rechecks_flags (s : Ctrl) (ok : Bool)
    (h : s.isTransitioning = true ∨ s.isListening = true) :
    (s.restartTimer = some .debounce → fireRestart ok s = ({ s with restartTimer := none }, [])) ∧
    (s.callEndInner2 = true → fireCallEndInner2 ok s = ({ s with callEndInner2 := false }, [])) ∧
    (s.endCallRecovery = true → fireEndCallRecovery ok s = ({ s with endCallRecovery := false }, [])) := by
  have hc : ¬(s.isTransitioning = false ∧ s.isListening = false) := by
    rcases h with h | h <;> simp [h]
  refine ⟨fun h1 => ?_, fun h2 => ?_, fun h3 => ?_⟩
  · unfold fireRestart
    rw [h1]
    simp only []
    rw [if_neg (by simpa using hc)]
  · unfold fireCallEndInner2
    rw [h2]
    simp only [if_true]
    rw [if_neg (by simp only [not_and]; intro _; simpa using hc)]
  · unfold fireEndCallRecovery
    rw [h3]
    simp only [if_true]
    rw [if_neg (by simpa using hc)]

def c7s : Ctrl :=
  { Ctrl.init with
      isTransitioning := true, restartTimer := some .debounce,
      callEndInner2 := true, endCallRecovery := true }

theorem claim7_restart_rechecks_flags_witness :
    fireRestart true c7s = ({ c7s with restartTimer := none }, []) ∧
    fireCallEndInner2 true c7s = ({ c7s with callEndInner2 := false }, []) ∧
    fireEndCallRecovery true c7s = ({ c7s with endCallRecovery := false }, []) :=
  ⟨(claim7_restart_rechecks_flags c7s true (Or.inl (by rfl))).1 (by rfl),
   (claim7_restart_rechecks_flags c7s true (Or.inl (by rfl))).2.1 (by rfl),
   (claim7_restart_rechecks_flags c7s true (Or.inl (by rfl))).2.2 (by rfl)⟩

/-- Claim C7 counterexample: a run in which a restart callback fires while
the controller is not in `listening`, yet it creates a recognition session
instead of dropping — because the `detectorState === 'listening'` part of
its check is the captured snapshot of an earlier render, not the live
state.  The run: permission granted, the delayed start creates session 0,
its on-start fires; a spurious VoiceBot `ended` report while listening
runs `handleCallEnd` (snapshot `listening`), whose settle chain starts;
session 0's on-end arrives (restart suppressed by `isTransitioning`); the
settle timer bails (state already `listening`) and arms the 500 ms step,
which drops `isTransitioning`, stops session 0 defensively and arms the
200 ms check; a trailing `not-allowed` error from the stopped session then
commits the `error` state (with the mount effect's bounce back to
`listening` still queued); the 200 ms check now fires — live detector is
`error`, so the claim demands a silent drop — but its snapshot says
`listening`, its live flags are clear, and it creates session 1 with the
controller in `error`. -/
def c7a : Ctrl × List Effect := permissionGranted Ctrl.init
def c7b : Ctrl × List Effect := fireRestart true c7a.1
def c7c : Ctrl × List Effect := onStart 0 c7b.1
def c7d : Ctrl × List Effect := voiceStatusChange .ended c7c.1
def c7e : Ctrl × List Effect := onEnd 0 c7d.1
def c7f : Ctrl × List Effect := fireCallEnded c7e.1
def c7g : Ctrl × List Effect := fireCallEndInner1 c7f.1
def c7h : Ctrl × List Effect := onError .notAllowed c7g.1
def c7i : Ctrl × List Effect := fireCallEndInner2 true c7h.1

theorem claim7_counterexample :
    (c7h.1).detector = .error ∧
    (c7h.1).callEndInner2 = true ∧
    (c7h.1).isTransitioning = false ∧ (c7h.1).isListening = false ∧
    c7i.2 = [Effect.createSession 1] ∧
    (c7i.1).detector = .error := by
  decide

/-! ## Claim C6: end-call idempotence -/

theorem stopRecognition_effects (s : Ctrl) :
    ∀ e ∈ (stopRecognition s).2, ∃ i, e = Effect.stopSession i := by
  unfold stopRecognition
  cases h : s.recognition <;> simp

theorem stopRecognition_no_voiceEnd (s : Ctrl) :
    Effect.voiceEndCall ∉ (stopRecognition s).2 := by
  unfold stopRecognition
  cases h : s.recognition <;> simp

theorem commitStep_no_voiceEnd (ns : DetectorState) (s : Ctrl) :
    Effect.voiceEndCall ∉ (commitStep ns s).2 := by
  unfold commitStep stopRecognition clearAllTimeouts
  by_cases h1 : s.mountCleanup <;>
    by_cases h2 : s.detector ≠ DetectorState.listening <;>
      cases h3 : s.recognition <;>
        simp [h1, h2, h3] <;> split <;> simp

theorem setState_no_voiceEnd (ns : DetectorState) (s : Ctrl) :
    Effect.voiceEndCall ∉ (setState ns s).2 := by
  unfold setState
  split
  · simp
  · exact commitStep_no_voiceEnd ns s

theorem stopRecognition_isCallEnding (s : Ctrl) :
    ((stopRecognition s).1).isCallEnding = s.isCallEnding := by
  unfold stopRecognition
  cases s.recognition <;> rfl

theorem commitStep_isCallEnding (ns : DetectorState) (s : Ctrl) :
    ((commitStep ns s).1).isCallEnding = s.isCallEnding := by
  unfold commitStep stopRecognition clearAllTimeouts
  by_cases h1 : s.mountCleanup <;>
    by_cases h2 : s.detector ≠ DetectorState.listening <;>
      cases h3 : s.recognition <;>
        simp [h1, h2, h3] <;> split <;> simp

theorem setState_isCallEnding (ns : DetectorState) (s : Ctrl) :
    ((setState ns s).1).isCallEnding = s.isCallEnding := by
  unfold setState
  split
  · rfl
  · exact commitStep_isCallEnding ns s

theorem stopRecognition_voiceBot (s : Ctrl) :
    ((stopRecognition s).1).voiceBot = s.voiceBot := by
  unfold stopRecognition
  cases s.recognition <;> rfl

theorem commitStep_voiceBot (ns : DetectorState) (s : Ctrl) :
    ((commitStep ns s).1).voiceBot = s.voiceBot := by
  unfold commitStep stopRecognition clearAllTimeouts
  by_cases h1 : s.mountCleanup <;>
    by_cases h2 : s.detector ≠ DetectorState.listening <;>
      cases h3 : s.recognition <;>
        simp [h1, h2, h3] <;> split <;> simp

theorem setState_voiceBot (ns : DetectorState) (s : Ctrl) :
    ((setState ns s).1).voiceBot = s.voiceBot := by
  unfold setState
  split
  · rfl
  · exact commitStep_voiceBot ns s

theorem endCallEnter_of_ending (s : Ctrl) (h : s.isCallEnding = true) :
    endCallEnter s = (s, []) := by
  unfold endCallEnter
  rw [if_pos h]

/-- Claim C6: invoking the explicit end-call operation twice in rapid
succession — the second arriving while the first is in flight, i.e. while
`isCallEnding` is true — results in exactly one VoiceBot `endCall()`
invocation; the second request is a silent no-op. -/
theorem claim6_endcall_idempotent (s : Ctrl)
    (h1 : s.isCallEnding = false) (h2 : s.voiceBot = true) :
    ((endCallEnter s).2).count Effect.voiceEndCall = 1 ∧
    ((endCallEnter s).1).isCallEnding = true ∧
    endCallEnter ((endCallEnter s).1) = ((endCallEnter s).1, []) := by
  have count0 : ∀ l : List Effect, Effect.voiceEndCall ∉ l →
      l.count Effect.voiceEndCall = 0 := fun l hl => List.count_eq_zero.2 hl
  have hmain : ((endCallEnter s).1).isCallEnding = true ∧
      ((endCallEnter s).2).count Effect.voiceEndCall = 1 := by
    unfold endCallEnter
    rw [if_neg (by simp [h1])]
    dsimp only
    set s1 : Ctrl := { s with isCallEnding := true, endCallSnap := s.detector } with hs1
    have hvb : ((setState .listening (clearAllTimeouts (stopRecognition s1).1)).1).voiceBot = true := by
      rw [setState_voiceBot]
      show ((stopRecognition s1).1).voiceBot = true
      rw [stopRecognition_voiceBot]
      exact h2
    rw [if_pos hvb]
    constructor
    · rw [setState_isCallEnding]
      show ((stopRecognition s1).1).isCallEnding = true
      rw [stopRecognition_isCallEnding]
    · rw [List.count_append, List.count_append]
      rw [count0 _ (stopRecognition_no_voiceEnd s1), count0 _ (setState_no_voiceEnd _ _)]
      rfl
  exact ⟨hmain.2, hmain.1, endCallEnter_of_ending _ hmain.1⟩

def c6s : Ctrl := { Ctrl.init with detector := .calling }

theorem claim6_endcall_idempotent_witness :
    ((endCallEnter c6s).2).count Effect.voiceEndCall = 1 ∧
    ((endCallEnter c6s).1).isCallEnding = true ∧
    endCallEnter ((endCallEnter c6s).1) = ((endCallEnter c6s).1, []) :=
  claim6_endcall_idempotent c6s (by rfl) (by rfl)

/-! ## Claim C9: manual trigger equals the wake-phrase path -/

/-- Claim C9: in the `listening` state (and not mid-transition) the
manual-trigger signal is accepted and treated identically to a
wake-phrase match: the resulting controller state is exactly the state an
on-result event with a matching transcript produces (and the emitted
actions agree up to the wake toast) — recognition stopped, all timers
cleared, `isTransitioning` set, state `detected` (the mount effect's
bounce back to `listening` is queued but not yet committed, as after a
wake match), and the call start scheduled behind the handoff delay. -/
theorem claim9_manual_trigger_is_wake_path (s : Ctrl) (t : String)
    (h1 : s.detector = .listening) (h2 : s.isTransitioning = false)
    (h3 : detectWakeWord t = true) :
    (handleStartConversation s).1 = (onResult t s).1 ∧
    (handleStartConversation s).2 ++ [Effect.toast] = (onResult t s).2 ∧
    ((handleStartConversation s).1).detector = .detected ∧
    ((handleStartConversation s).1).isTransitioning = true ∧
    ((handleStartConversation s).1).recognition = none ∧
    ((handleStartConversation s).1).isListening = false ∧
    ((handleStartConversation s).1).noSpeechTimer = none ∧
    ((handleStartConversation s).1).restartTimer = none ∧
    ((handleStartConversation s).1).callEndedTimer = false ∧
    ((handleStartConversation s).1).pendStartCall = true := by
  obtain ⟨d, rec, n, l, tr, ce, ac, vb, nst, rt, cet, ci1, ci2, ps, trt, rct, art, ecr,
    hm, mc, bq, ces, ecs⟩ := s
  dsimp only at h1 h2
  subst h1
  subst h2
  cases rec <;> cases mc <;>
    simp [handleStartConversation, onResult, stopRecognition, clearAllTimeouts, setState,
      commitStep, h3]

def c9s : Ctrl :=
  { Ctrl.init with detector := .listening, recognition := some 0, isListening := true }

theorem claim9_manual_trigger_is_wake_path_witness :
    (handleStartConversation c9s).1 = (onResult "hey anna" c9s).1 ∧
    (handleStartConversation c9s).2 ++ [Effect.toast] = (onResult "hey anna" c9s).2 ∧
    ((handleStartConversation c9s).1).detector = .detected ∧
    ((handleStartConversation c9s).1).isTransitioning = true ∧
    ((handleStartConversation c9s).1).recognition = none ∧
    ((handleStartConversation c9s).1).isListening = false ∧
    ((handleStartConversation c9s).1).noSpeechTimer = none ∧
    ((handleStartConversation c9s).1).restartTimer = none ∧
    ((handleStartConversation c9s).1).callEndedTimer = false ∧
    ((handleStartConversation c9s).1).pendStartCall = true :=
  claim9_manual_trigger_is_wake_path c9s "hey anna" (by rfl) (by rfl) (by decide)

/-! ## Claim C8: call-start / call-end failure handling -/

/-- True exactly on host status-callback effects. -/
def Effect.isStatusCb : Effect → Bool
  | .statusCb _ => true
  | _ => false

/-- Claim C8 counterexample: from the post-wake state, a failing call
start (`startCall` with a failed outcome, covering a throw or the 10 s
timeout) emits a toast and, across the whole recovery sequence, not one
status-callback invocation — the failure is never surfaced to the hosting
application via the status callback, contradicting the claim (the
recovery to `listening` itself does happen). -/
def c8s : Ctrl := { Ctrl.init with detector := .detected, isTransitioning := true }

def c8a : Ctrl × List Effect := startCall false c8s
def c8b : Ctrl × List Effect := fireRecover c8a.1
def c8c : Ctrl × List Effect := fireTransReset c8b.1

theorem claim8_counterexample :
    Effect.toast ∈ c8a.2 ∧
    (c8a.2 ++ c8b.2 ++ c8c.2).all (fun e => !(e.isStatusCb)) = true ∧
    (c8c.1).detector = .listening ∧ (c8c.1).isTransitioning = false := by
  decide

/-- Claim C8 (amended): a call-start failure is surfaced to the user via
an error toast — not via the host status callback, which is never invoked
on that path — and after the recovery timers the controller is back in
`listening` with `isTransitioning`, `isCallEnding` and `isListening` all
clear; a call-end failure (the `endCall` catch path) is surfaced to the
host via the `ended` status callback, again with the controller in
`listening` and all guard flags clear. -/
theorem claim8_failure_recovery (s : Ctrl)
    (h0 : s.detector = .detected) (h4 : s.recognition = none)
    (h1 : s.isCallEnding = false) (h2 : s.voiceBot = true) (h3 : s.isApiCalling = false) :
    (Effect.toast ∈ (startCall false s).2 ∧
     ((startCall false s).2 ++ (fireRecover (startCall false s).1).2 ++
        (fireTransReset (fireRecover (startCall false s).1).1).2).all
          (fun e => !(e.isStatusCb)) = true ∧
     ((fireTransReset (fireRecover (startCall false s).1).1).1).detector = .listening ∧
     ((fireTransReset (fireRecover (startCall false s).1).1).1).isTransitioning = false ∧
     ((fireTransReset (fireRecover (startCall false s).1).1).1).isCallEnding = false ∧
     ((fireTransReset (fireRecover (startCall false s).1).1).1).isListening = false) ∧
    ((endCallFinish false (endCallEnter s).1).2.count (Effect.statusCb .ended) = 1 ∧
     ((endCallFinish false (endCallEnter s).1).1).detector = .listening ∧
     ((endCallFinish false (endCallEnter s).1).1).isTransitioning = false ∧
     ((endCallFinish false (endCallEnter s).1).1).isCallEnding = false ∧
     ((endCallFinish false (endCallEnter s).1).1).isListening = false) := by
  obtain ⟨d, rec, n, l, tr, ce, ac, vb, nst, rt, cet, ci1, ci2, ps, trt, rct, art, ecr,
    hm, mc, bq, ces, ecs⟩ := s
  dsimp only at h0 h4 h1 h2 h3
  subst h0
  subst h4
  subst h1
  subst h2
  subst h3
  cases tr <;> cases hm <;> cases mc <;>
    simp [startCall, fireRecover, fireTransReset, endCallEnter, endCallFinish,
      setState, commitStep, stopRecognition, clearAllTimeouts, Effect.isStatusCb]

def c8w : Ctrl := { Ctrl.init with detector := .detected }

theorem claim8_failure_recovery_witness :
    Effect.toast ∈ (startCall false c8w).2 ∧
    ((fireTransReset (fireRecover (startCall false c8w).1).1).1).detector = .listening ∧
    ((endCallFinish false (endCallEnter c8w).1).2).count (Effect.statusCb .ended) = 1 ∧
    ((endCallFinish false (endCallEnter c8w).1).1).detector = .listening :=
  have h := claim8_failure_recovery c8w (by rfl) (by rfl) (by rfl) (by rfl) (by rfl)
  ⟨h.1.1, h.1.2.2.1, h.2.1, h.2.2.1⟩

/-! ## Claim C5: the not-allowed error path -/

/-- Claim C5 (amended): a `not-allowed` recognition error delivered while
the controller is listening with an active session always commits the
`error` state (tearing the session down and surfacing the toast), but the
error state is only a transient: because microphone permission is cached,
the mount effect's queued `setDetectorState('listening')` immediately
recommits `listening`, whose state-change effect arms the delayed start
timer — and that timer's next firing creates a fresh recognition session.
Recognition thus restarts automatically, with no manual retry. -/
theorem claim5_not_allowed_error_transient (s : Ctrl) (sid : Nat)
    (hdet : s.detector = .listening) (hact : s.recognition = some sid)
    (hmic : s.hasMicPermission = true) (htr : s.isTransitioning = false)
    (hapi : s.isApiCalling = false) :
    ((onError .notAllowed s).1).detector = .error ∧
    ((onError .notAllowed s).1).bounceQueued = true ∧
    ((fireBounce (onError .notAllowed s).1).1).detector = .listening ∧
    ((fireBounce (onError .notAllowed s).1).1).restartTimer = some .stateChange ∧
    (fireRestart true (fireBounce (onError .notAllowed s).1).1).2 =
      [Effect.createSession s.nextId] := by
  obtain ⟨d, rec, n, l, tr, ce, ac, vb, nst, rt, cet, ci1, ci2, ps, trt, rct, art, ecr,
    hm, mc, bq, ces, ecs⟩ := s
  dsimp only at hdet hact hmic htr hapi
  subst hdet
  subst hact
  subst hmic
  subst htr
  subst hapi
  cases mc <;>
    simp [onError, setState, commitStep, fireBounce, fireRestart, startWakeWordDetection,
      stopRecognition, clearAllTimeouts]

def c5w : Ctrl :=
  { Ctrl.init with
      detector := .listening, recognition := some 0,
      hasMicPermission := true, mountCleanup := false }

theorem claim5_not_allowed_error_transient_witness :
    ((onError .notAllowed c5w).1).detector = .error ∧
    ((onError .notAllowed c5w).1).bounceQueued = true ∧
    ((fireBounce (onError .notAllowed c5w).1).1).detector = .listening ∧
    ((fireBounce (onError .notAllowed c5w).1).1).restartTimer = some .stateChange ∧
    (fireRestart true (fireBounce (onError .notAllowed c5w).1).1).2 =
      [Effect.createSession 0] :=
  claim5_not_allowed_error_transient c5w 0 (by rfl) (by rfl) (by rfl) (by rfl) (by rfl)

/-- Claim C5 counterexample: a run, from mount, in which a `not-allowed`
error is delivered to the active session and recognition is nonetheless
restarted with no manual retry and no further external input.  Permission
is granted; the delayed start creates session 0; its on-start fires; the
session delivers `not-allowed`: the controller commits `error` — but the
mount effect (whose dependencies include `detectorState`, and which with
the now-cached permission just calls `setDetectorState('listening')`)
bounces it straight back to `listening`, arming the restart timer, and the
timer's firing creates session 1.  The error state did not persist and
recognition restarted automatically, contradicting both halves of the
claim's second part. -/
def c5a : Ctrl × List Effect := permissionGranted Ctrl.init
def c5b : Ctrl × List Effect := fireRestart true c5a.1
def c5c : Ctrl × List Effect := onStart 0 c5b.1
def c5d : Ctrl × List Effect := onError .notAllowed c5c.1
def c5e : Ctrl × List Effect := fireBounce c5d.1
def c5f : Ctrl × List Effect := fireRestart true c5e.1

theorem claim5_counterexample :
    (c5c.1).recognition = some 0 ∧
    (c5d.1).detector = .error ∧
    (c5e.1).detector = .listening ∧
    c5f.2 = [Effect.createSession 1] := by
  decide
